import Mathlib

set_option autoImplicit false

/-!
Verification development for NeuroSync_Trainer_Lite.

This file gives a shallow embedding, in Lean, of the two source files of the
repository and proves the specified properties about it:

* `src/utils/csv/save_csv.py` — the CSV export helper
  `save_generated_data_as_csv`, modelled as a pure function from the input
  matrix (a list of rows) and the `include_emotion_dimensions` flag to either
  an error (the Python function raises `ValueError`) or the body of the file
  it writes (header plus data rows).

* `src/utils/training_helpers.py` — the multi-GPU gradient helpers
  `_backward_and_step_multi_gpu`, `_sync_models`, `init_weights` and
  `load_or_initialize_models`, modelled over explicit model states.  A model
  is a list of parameters, each a tensor (list of rationals) together with an
  optional gradient tensor, exactly the data the Python helpers read and
  write.  Library primitives that the helpers merely invoke
  (`clip_grad_norm_`, `optimizer.step`, the RNG behind `nn.init.normal_`,
  the checkpoint loader) are abstracted as function parameters: the theorems
  hold for every behaviour of those primitives, which matches the fact that
  the repository only sequences them.

Machine reals (`torch` tensors, `numpy` float64) are embedded as `ℚ`; the
properties proved here are about data movement, aggregation and schema, not
about bit-level float rounding.  The one place where IEEE-754 double rounding
is semantically load-bearing — the `Timecode` string synthesis in
`save_generated_data_as_csv` — is deliberately not modelled (the row keeps
the frame index that the float computation formats).
-/

namespace NeuroSync

/-! ## CSV export (`src/utils/csv/save_csv.py`) -/

/-- Base columns (blendshape data), `save_csv.py` lines 6-16: `Timecode`,
`BlendshapeCount` and the 61 blendshape channel names. -/
def base_columns : List String :=
  ["Timecode", "BlendshapeCount", "EyeBlinkLeft", "EyeLookDownLeft", "EyeLookInLeft",
   "EyeLookOutLeft", "EyeLookUpLeft",
   "EyeSquintLeft", "EyeWideLeft", "EyeBlinkRight", "EyeLookDownRight", "EyeLookInRight",
   "EyeLookOutRight", "EyeLookUpRight",
   "EyeSquintRight", "EyeWideRight", "JawForward", "JawRight", "JawLeft", "JawOpen",
   "MouthClose", "MouthFunnel", "MouthPucker",
   "MouthRight", "MouthLeft", "MouthSmileLeft", "MouthSmileRight", "MouthFrownLeft",
   "MouthFrownRight", "MouthDimpleLeft",
   "MouthDimpleRight", "MouthStretchLeft", "MouthStretchRight", "MouthRollLower",
   "MouthRollUpper", "MouthShrugLower",
   "MouthShrugUpper", "MouthPressLeft", "MouthPressRight", "MouthLowerDownLeft",
   "MouthLowerDownRight", "MouthUpperUpLeft",
   "MouthUpperUpRight", "BrowDownLeft", "BrowDownRight", "BrowInnerUp", "BrowOuterUpLeft",
   "BrowOuterUpRight", "CheekPuff",
   "CheekSquintLeft", "CheekSquintRight", "NoseSneerLeft", "NoseSneerRight", "TongueOut",
   "HeadYaw", "HeadPitch", "HeadRoll",
   "LeftEyeYaw", "LeftEyePitch", "LeftEyeRoll", "RightEyeYaw", "RightEyePitch",
   "RightEyeRoll"]

/-- Emotion columns (optional), `save_csv.py` line 19. -/
def emotion_columns : List String :=
  ["Angry", "Disgusted", "Fearful", "Happy", "Neutral", "Sad", "Surprised"]

/-- The two failure modes of `save_generated_data_as_csv`; both surface as a
Python `ValueError` raised before `to_csv` writes anything. -/
inductive CsvError where
  /-- The explicit `raise ValueError` at line 26 when `generated.shape[1]` is
  neither 68 nor 61; the payload is the offending column count. -/
  | badColumnCount (got : ℕ)
  /-- The `ValueError` raised by the `pd.DataFrame(data, columns=...)`
  constructor at line 61 when the number of column names disagrees with the
  width of `data`. -/
  | dataFrameShapeMismatch (namedCols dataCols : ℕ)
  deriving DecidableEq, Repr

/-- One data row of the written CSV.  `frameIndex` stands for the `Timecode`
cell: the Python code formats the string from the frame index `i` with
IEEE-754 double arithmetic (lines 44-51), which is outside this rational
embedding, so the row records the index that determines the string.
`blendshapeCount` is the `BlendshapeCount` cell (line 55) and `values` the
per-channel payload of the row (line 58). -/
structure CsvRow (α : Type) where
  frameIndex : ℕ
  blendshapeCount : ℕ
  values : List α
  deriving DecidableEq, Repr

/-- The body of the CSV file written by `df.to_csv` (line 62): the header row
and the data rows. -/
structure CsvFile (α : Type) where
  header : List String
  rows : List (CsvRow α)
  deriving DecidableEq, Repr

/-- Width of the input matrix, i.e. `generated.shape[1]` after
`np.array(generated)` (line 22): the common length of the rows.  Read off the
first row; the theorems assume a rectangular, nonempty input, which is the
case in which `numpy` yields a 2-D array with a `shape[1]` at all. -/
def shape1 {α : Type} (generated : List (List α)) : ℕ :=
  (generated.headD []).length

/-- Shallow embedding of `save_generated_data_as_csv` (`save_csv.py` lines
4-63).  The input is the `generated` matrix as a list of rows over an
arbitrary cell type and the `include_emotion_dimensions` flag; the result is
the written file body, or the `ValueError` the Python function raises.
Mirrors the source line by line: the column-count check (lines 25-26), the
selection of columns and data (lines 29-35), the per-frame `Timecode`
synthesis (lines 43-51, kept as the frame index, see `CsvRow`), the constant
`BlendshapeCount` column (line 55), the `np.hstack` pairing each frame with
its row (line 58), and the `pd.DataFrame` constructor (line 61), which
raises when the widths disagree. -/
def save_generated_data_as_csv {α : Type} (generated : List (List α))
    (include_emotion_dimensions : Bool) : Except CsvError (CsvFile α) :=
  if ¬ (shape1 generated = 68 ∨ shape1 generated = 61) then
    .error (.badColumnCount (shape1 generated))
  else
    let selected_columns :=
      if include_emotion_dimensions then base_columns ++ emotion_columns else base_columns
    let selected_data :=
      if include_emotion_dimensions then generated
      else generated.map (fun row => row.take 61)
    let counts := shape1 selected_data
    let rows := selected_data.mapIdx fun i row =>
      { frameIndex := i, blendshapeCount := counts, values := row : CsvRow α }
    if selected_columns.length = 2 + counts then
      .ok { header := selected_columns, rows := rows }
    else
      .error (.dataFrameShapeMismatch selected_columns.length (2 + counts))

/-! ### Helper lemmas about the embedding -/

theorem base_columns_length : base_columns.length = 63 := by decide

theorem emotion_columns_length : emotion_columns.length = 7 := by decide

/-- On a nonempty rectangular input, `shape1` is the common row width. -/
theorem shape1_eq {α : Type} {generated : List (List α)} {w : ℕ}
    (hne : generated ≠ []) (hw : ∀ r ∈ generated, r.length = w) :
    shape1 generated = w := by
  cases generated with
  | nil => exact absurd rfl hne
  | cons r rs => exact hw r (List.mem_cons_self r rs)

/-- Mapping `CsvRow.values` over the synthesized rows recovers the selected
data unchanged. -/
theorem values_of_rows {α : Type} (c : ℕ) (l : List (List α)) :
    ((l.mapIdx fun i row =>
        { frameIndex := i, blendshapeCount := c, values := row : CsvRow α }).map
      CsvRow.values) = l := by
  apply List.ext_getElem
  · simp
  · intro j h1 h2
    simp [List.getElem_mapIdx]

/-- Every synthesized row carries the constant count `c`. -/
theorem count_of_rows {α : Type} (c : ℕ) (l : List (List α)) (r : CsvRow α)
    (hr : r ∈ l.mapIdx fun i row =>
        { frameIndex := i, blendshapeCount := c, values := row : CsvRow α }) :
    r.blendshapeCount = c := by
  obtain ⟨i, hlt, heq⟩ := List.exists_of_mem_mapIdx hr
  rw [← heq]

/-- Every synthesized row takes its values from the selected data. -/
theorem values_mem_of_rows {α : Type} (c : ℕ) (l : List (List α)) (r : CsvRow α)
    (hr : r ∈ l.mapIdx fun i row =>
        { frameIndex := i, blendshapeCount := c, values := row : CsvRow α }) :
    r.values ∈ l := by
  obtain ⟨i, hlt, heq⟩ := List.exists_of_mem_mapIdx hr
  rw [← heq]
  exact List.getElem_mem hlt

/-- Width of the sliced data `generated[:, :61]` on a rectangular input. -/
theorem shape1_map_take {α : Type} {generated : List (List α)} {w : ℕ}
    (hne : generated ≠ []) (hw : ∀ r ∈ generated, r.length = w) :
    shape1 (generated.map fun row => row.take 61) = min 61 w := by
  cases generated with
  | nil => exact absurd rfl hne
  | cons r rs => simp [shape1, hw r (List.mem_cons_self r rs)]

/-- Failure of `save_generated_data_as_csv` on a width that is neither 61
nor 68: the explicit column-count check raises before anything else runs. -/
theorem save_bad_width {α : Type} {generated : List (List α)} {w : ℕ} (incl : Bool)
    (hne : generated ≠ []) (hw : ∀ r ∈ generated, r.length = w)
    (h61 : w ≠ 61) (h68 : w ≠ 68) :
    save_generated_data_as_csv generated incl = .error (.badColumnCount w) := by
  have h1 := shape1_eq hne hw
  simp [save_generated_data_as_csv, h1, h61, h68]

/-- Master characterization of the successful runs of
`save_generated_data_as_csv` on a nonempty rectangular input: the three
accepted shape/flag combinations and the file they produce. -/
theorem save_ok_cases {α : Type} {generated : List (List α)} {w : ℕ} {incl : Bool}
    (hne : generated ≠ []) (hw : ∀ r ∈ generated, r.length = w)
    (hcase : (incl = false ∧ (w = 61 ∨ w = 68)) ∨ (incl = true ∧ w = 68)) :
    save_generated_data_as_csv generated incl =
      .ok { header := if incl then base_columns ++ emotion_columns else base_columns,
            rows :=
              (if incl then generated else generated.map fun row => row.take 61).mapIdx
                fun i row =>
                  { frameIndex := i, blendshapeCount := if incl then 68 else 61,
                    values := row } } := by
  have h1 := shape1_eq hne hw
  have h2 := shape1_map_take hne hw
  rcases hcase with ⟨rfl, rfl | rfl⟩ | ⟨rfl, rfl⟩ <;>
    simp_all [save_generated_data_as_csv, base_columns_length, emotion_columns_length]

/-! ### Concrete inputs used by counterexamples and witnesses -/

/-- A one-row matrix with 61 columns. -/
def mat61 : List (List ℕ) := [List.replicate 61 0]

/-- A two-row matrix with 61 columns. -/
def mat61two : List (List ℕ) := [List.replicate 61 2, List.replicate 61 3]

/-- A one-row matrix with 68 columns. -/
def mat68 : List (List ℕ) := [List.range 68]

/-- A two-row matrix with 68 columns. -/
def mat68two : List (List ℕ) := [List.replicate 68 5, List.range 68]

/-- A one-row matrix with 3 columns (an invalid width). -/
def mat3 : List (List ℕ) := [[7, 8, 9]]

/-! ### Claim theorems for the CSV exporter -/

/-- C2, counterexample: the claim quantifies over both settings of
`include_emotion_dimensions` for every 61- or 68-column input, but a
61-column input with emotions included does not yield a CSV at all — the
`pd.DataFrame` constructor raises because 70 column names are paired with
63 data columns, so no file with the claimed row/column counts is written. -/
theorem csv_61_incl_counterexample :
    save_generated_data_as_csv mat61 true
      = .error (.dataFrameShapeMismatch 70 63) := by
  rfl

/-- C2 (amended): for every nonempty rectangular input matrix with exactly 61
or 68 columns, and for either setting of `include_emotion_dimensions` —
except the combination of a 61-column input with emotions included, on which
the `DataFrame` construction raises — `save_generated_data_as_csv` writes a
CSV whose data row count equals the input row count and whose column count
matches the requested schema: 61 data channels (63 columns with `Timecode`
and `BlendshapeCount`) when emotions are excluded, 68 data channels (70
columns) when they are included. -/
theorem csv_shape_of_valid {α : Type} (generated : List (List α)) (incl : Bool) (w : ℕ)
    (hne : generated ≠ []) (hw : ∀ r ∈ generated, r.length = w)
    (hcase : (incl = false ∧ (w = 61 ∨ w = 68)) ∨ (incl = true ∧ w = 68)) :
    ∃ f : CsvFile α, save_generated_data_as_csv generated incl = .ok f ∧
      f.rows.length = generated.length ∧
      (∀ r ∈ f.rows, r.values.length = if incl then 68 else 61) ∧
      f.header.length = if incl then 70 else 63 := by
  refine ⟨_, save_ok_cases hne hw hcase, ?_, ?_, ?_⟩
  · rcases hcase with ⟨rfl, -⟩ | ⟨rfl, -⟩ <;> simp
  · intro r hr
    have hv := values_mem_of_rows _ _ r hr
    rcases hcase with ⟨rfl, hw61 | hw68⟩ | ⟨rfl, rfl⟩
    · simp only [if_false, Bool.false_eq_true, if_neg Bool.false_ne_true] at hv ⊢
      obtain ⟨row, hrow, hvr⟩ := List.mem_map.mp hv
      rw [← hvr]
      simp [hw row hrow, hw61]
    · simp only [if_false, Bool.false_eq_true, if_neg Bool.false_ne_true] at hv ⊢
      obtain ⟨row, hrow, hvr⟩ := List.mem_map.mp hv
      rw [← hvr]
      simp [hw row hrow, hw68]
    · simp only [if_pos rfl] at hv ⊢
      exact hw _ hv
  · rcases hcase with ⟨rfl, -⟩ | ⟨rfl, -⟩ <;>
      simp [base_columns_length, emotion_columns_length]

/-- C2 witness: the amended statement applied to a concrete 68-column,
two-row input with emotions included. -/
theorem csv_shape_of_valid_witness :
    mat68two ≠ [] ∧ (∀ r ∈ mat68two, r.length = 68) ∧
      ∃ f : CsvFile ℕ, save_generated_data_as_csv mat68two true = .ok f ∧
        f.rows.length = mat68two.length ∧
        (∀ r ∈ f.rows, r.values.length = if true then 68 else 61) ∧
        f.header.length = if true then 70 else 63 :=
  ⟨by decide, by decide,
    csv_shape_of_valid mat68two true 68 (by decide) (by decide) (Or.inr ⟨rfl, rfl⟩)⟩

/-- C3, counterexample: on a valid 61-column input with emotions excluded the
written header has 63 named columns (`Timecode` and `BlendshapeCount` are
columns too), not 61 or 68 as the claim counts them. -/
theorem csv_header_count_counterexample :
    ((save_generated_data_as_csv mat61two false).toOption.map fun f => f.header.length)
        = some 63
      ∧ ¬ ((63 : ℕ) = 61 ∨ (63 : ℕ) = 68) := by
  exact ⟨rfl, by decide⟩

/-- C3 (amended): for every valid input the header row written by
`save_generated_data_as_csv` consists of 63 or 70 named columns: `Timecode`,
`BlendshapeCount`, the 61 fixed blendshape channel names, and, when
`include_emotion_dimensions` is true, the 7 emotion names, in that order. -/
theorem csv_header_of_valid {α : Type} (generated : List (List α)) (incl : Bool) (w : ℕ)
    (hne : generated ≠ []) (hw : ∀ r ∈ generated, r.length = w)
    (hcase : (incl = false ∧ (w = 61 ∨ w = 68)) ∨ (incl = true ∧ w = 68)) :
    ∃ f : CsvFile α, save_generated_data_as_csv generated incl = .ok f ∧
      f.header = "Timecode" :: "BlendshapeCount" ::
        (base_columns.drop 2 ++ if incl then emotion_columns else []) ∧
      (base_columns.drop 2).length = 61 ∧
      emotion_columns.length = 7 ∧
      f.header.length = if incl then 70 else 63 := by
  refine ⟨_, save_ok_cases hne hw hcase, ?_, by decide, by decide, ?_⟩
  · rcases hcase with ⟨rfl, -⟩ | ⟨rfl, -⟩
    · simp only [Bool.false_eq_true, if_false]
      decide
    · simp only [if_pos rfl]
      decide
  · rcases hcase with ⟨rfl, -⟩ | ⟨rfl, -⟩ <;>
      simp [base_columns_length, emotion_columns_length]

/-- C3 witness: the amended header statement applied to a concrete 68-column
input with emotions included. -/
theorem csv_header_of_valid_witness :
    mat68 ≠ [] ∧ (∀ r ∈ mat68, r.length = 68) ∧
      ∃ f : CsvFile ℕ, save_generated_data_as_csv mat68 true = .ok f ∧
        f.header = "Timecode" :: "BlendshapeCount" ::
          (base_columns.drop 2 ++ if true then emotion_columns else []) ∧
        (base_columns.drop 2).length = 61 ∧
        emotion_columns.length = 7 ∧
        f.header.length = if true then 70 else 63 :=
  ⟨by decide, by decide,
    csv_header_of_valid mat68 true 68 (by decide) (by decide) (Or.inr ⟨rfl, rfl⟩)⟩

/-- C5: on every nonempty rectangular input whose column count is neither 61
nor 68, `save_generated_data_as_csv` raises the explicit shape `ValueError`
of lines 25-26, carrying the offending width; the error is returned instead
of any file body, so nothing is written. -/
theorem csv_bad_width_errors {α : Type} (generated : List (List α)) (incl : Bool) (w : ℕ)
    (hne : generated ≠ []) (hw : ∀ r ∈ generated, r.length = w)
    (h61 : w ≠ 61) (h68 : w ≠ 68) :
    save_generated_data_as_csv generated incl = .error (.badColumnCount w) :=
  save_bad_width incl hne hw h61 h68

/-- C5 witness: the shape error on a concrete 3-column input. -/
theorem csv_bad_width_errors_witness :
    mat3 ≠ [] ∧ (∀ r ∈ mat3, r.length = 3) ∧ (3 : ℕ) ≠ 61 ∧ (3 : ℕ) ≠ 68 ∧
      save_generated_data_as_csv mat3 true = .error (.badColumnCount 3) :=
  ⟨by decide, by decide, by decide, by decide,
    csv_bad_width_errors mat3 true 3 (by decide) (by decide) (by decide) (by decide)⟩

/-- C6: on every nonempty rectangular 68-column input with
`include_emotion_dimensions = false`, only the 61-channel schema is written:
the header has 63 named columns, every row keeps exactly the first 61 input
columns unchanged, and the last 7 (emotion) columns are dropped. -/
theorem csv_drop_emotions {α : Type} (generated : List (List α))
    (hne : generated ≠ []) (hw : ∀ r ∈ generated, r.length = 68) :
    ∃ f : CsvFile α, save_generated_data_as_csv generated false = .ok f ∧
      f.header.length = 63 ∧
      f.rows.map CsvRow.values = generated.map (fun row => row.take 61) ∧
      (∀ r ∈ f.rows, r.values.length = 61) := by
  refine ⟨_, save_ok_cases hne hw (Or.inl ⟨rfl, Or.inr rfl⟩), ?_, ?_, ?_⟩
  · simp [base_columns_length]
  · simpa using values_of_rows (α := α) 61 (generated.map fun row => row.take 61)
  · intro r hr
    have hv := values_mem_of_rows _ _ r hr
    simp only [Bool.false_eq_true, if_false] at hv
    obtain ⟨row, hrow, hvr⟩ := List.mem_map.mp hv
    rw [← hvr]
    simp [hw row hrow]

/-- C6 witness: a concrete 68-column, two-row input with emotions disabled. -/
theorem csv_drop_emotions_witness :
    mat68two ≠ [] ∧ (∀ r ∈ mat68two, r.length = 68) ∧
      ∃ f : CsvFile ℕ, save_generated_data_as_csv mat68two false = .ok f ∧
        f.header.length = 63 ∧
        f.rows.map CsvRow.values = mat68two.map (fun row => row.take 61) ∧
        (∀ r ∈ f.rows, r.values.length = 61) :=
  ⟨by decide, by decide, csv_drop_emotions mat68two (by decide) (by decide)⟩

/-- C7: whenever `save_generated_data_as_csv` succeeds on a nonempty
rectangular input, every output row's `BlendshapeCount` field is the same
constant, equal to that row's channel count: 61 when the 61-channel schema is
written (emotions excluded), 68 when the 68-channel schema is written
(emotions included). -/
theorem csv_blendshape_count_constant {α : Type} (generated : List (List α))
    (incl : Bool) (w : ℕ) (f : CsvFile α)
    (hne : generated ≠ []) (hw : ∀ r ∈ generated, r.length = w)
    (hok : save_generated_data_as_csv generated incl = .ok f) :
    ∀ r ∈ f.rows, r.blendshapeCount = (if incl then 68 else 61) ∧
      r.blendshapeCount = r.values.length := by
  have h1 := shape1_eq hne hw
  have hw' : w = 68 ∨ w = 61 := by
    by_contra hcon
    push_neg at hcon
    rw [save_bad_width incl hne hw hcon.2 hcon.1] at hok
    exact Except.noConfusion hok
  have hcase : (incl = false ∧ (w = 61 ∨ w = 68)) ∨ (incl = true ∧ w = 68) := by
    cases incl with
    | false => exact Or.inl ⟨rfl, hw'.symm⟩
    | true =>
        rcases hw' with h68 | h61
        · exact Or.inr ⟨rfl, h68⟩
        · exfalso
          subst h61
          rw [show save_generated_data_as_csv generated true
                = .error (.dataFrameShapeMismatch 70 63) from ?_] at hok
          · exact Except.noConfusion hok
          · simp [save_generated_data_as_csv, h1, base_columns_length,
              emotion_columns_length]
  rw [save_ok_cases hne hw hcase] at hok
  injection hok with hf
  subst hf
  intro r hr
  refine ⟨count_of_rows _ _ r hr, ?_⟩
  have hv := values_mem_of_rows _ _ r hr
  rw [count_of_rows _ _ r hr]
  rcases hcase with ⟨rfl, h6168⟩ | ⟨rfl, rfl⟩
  · simp only [Bool.false_eq_true, if_false] at hv ⊢
    obtain ⟨row, hrow, hvr⟩ := List.mem_map.mp hv
    rw [← hvr]
    rcases h6168 with rfl | rfl <;> simp [hw row hrow]
  · simp only [if_pos rfl] at hv ⊢
    exact (hw _ hv).symm

/-- C7 witness: the blendshape-count statement applied to a concrete
68-column input with emotions excluded, whose output file is computed. -/
theorem csv_blendshape_count_constant_witness :
    mat68 ≠ [] ∧ (∀ r ∈ mat68, r.length = 68) ∧
      ∀ r ∈ ((save_generated_data_as_csv mat68 false).toOption.getD ⟨[], []⟩).rows,
        r.blendshapeCount = (if false then 68 else 61) ∧
        r.blendshapeCount = r.values.length :=
  ⟨by decide, by decide,
    csv_blendshape_count_constant mat68 false 68
      ((save_generated_data_as_csv mat68 false).toOption.getD ⟨[], []⟩)
      (by decide) (by decide) (by rfl)⟩

/-- C10: on every nonempty rectangular 61-column input (a shape the explicit
column-count check accepts), calling `save_generated_data_as_csv` with
`include_emotion_dimensions = true` fails and writes no CSV: the 70-name
column list (61 channels plus 7 emotion names plus `Timecode` and
`BlendshapeCount`) is paired with only 63 data columns, so the `DataFrame`
construction raises. -/
theorem csv_61_with_emotions_raises {α : Type} (generated : List (List α))
    (hne : generated ≠ []) (hw : ∀ r ∈ generated, r.length = 61) :
    save_generated_data_as_csv generated true
      = .error (.dataFrameShapeMismatch 70 63) := by
  have h1 := shape1_eq hne hw
  simp [save_generated_data_as_csv, h1, base_columns_length, emotion_columns_length]

/-- C10 witness: the `DataFrame` shape failure on a concrete 61-column,
two-row input. -/
theorem csv_61_with_emotions_raises_witness :
    mat61two ≠ [] ∧ (∀ r ∈ mat61two, r.length = 61) ∧
      save_generated_data_as_csv mat61two true
        = .error (.dataFrameShapeMismatch 70 63) :=
  ⟨by decide, by decide, csv_61_with_emotions_raises mat61two (by decide) (by decide)⟩

/-! ## Training helpers (`src/utils/training_helpers.py`) -/

/-- A parameter of a replica model, as the helpers manipulate it: its value
tensor `data` and its gradient `grad` (`p.grad` in torch, `none` when the
gradient is `None`).  Tensor contents are flattened to lists of rationals;
moving a tensor between devices is a value-level identity. -/
structure Param where
  data : List ℚ
  grad : Option (List ℚ)
  deriving DecidableEq, Repr

/-- A model, as the helpers see it: the sequence `model.parameters()`. -/
abbrev Model := List Param

/-- Placeholder parameter, the default of out-of-range positional lookups. -/
def noParam : Param := { data := [], grad := none }

/-- Division of every present gradient of a model by the AMP scale factor:
this is the manual loop of `_backward_and_step_multi_gpu` (lines 188-192)
for a secondary replica, and equally the effect on `models[0]` of the
library call `grad_scaler.unscale_(optimizer)` at line 185, since the
optimizer holds the primary model's parameters. -/
def unscale_grads (scale : ℚ) (m : Model) : Model :=
  m.map fun p => { p with grad := p.grad.map fun g => g.map fun x => x / scale }

/-- The guard of the averaging loop (line 205): parameter index `j` is
processed iff it lies within every replica's parameter list (that is the
`zip` truncation of line 203) and every replica has a gradient there. -/
def all_have_grad (ms : List Model) (j : ℕ) : Bool :=
  ms.all fun m => decide (j < m.length) && (m.getD j noParam).grad.isSome

/-- `torch.stack(grads, dim=0)` followed by `torch.mean(·, dim=0)` (lines
208-210): the elementwise mean over the replica axis.  `torch.stack`
requires the gradients to share a shape, so the length is read off the
first one. -/
def stack_mean (gs : List (List ℚ)) : List ℚ :=
  (List.range (gs.headD []).length).map fun k =>
    (gs.map fun g => g.getD k 0).sum / (gs.length : ℚ)

/-- The vectorized gradient-averaging loop (lines 201-212): for each tuple
of corresponding parameters in which all replicas have a gradient, the
gradients are moved to the primary device (a value-level identity), stacked,
their elementwise mean is taken and the result is copied into the primary
parameter's gradient slot.  Only `models[0]` is written to. -/
def average_grads (ms : List Model) : List Model :=
  match ms with
  | [] => []
  | primary :: rest =>
      (primary.mapIdx fun j p =>
        if all_have_grad (primary :: rest) j then
          { p with grad := some (stack_mean ((primary :: rest).map fun m =>
              (m.getD j noParam).grad.getD [])) }
        else p) :: rest

/-- Shallow embedding of `_backward_and_step_multi_gpu` (lines 158-224),
starting from the state after the backward passes: `ms` already holds the
per-replica gradients the (scaled) losses produced.  Under AMP every
gradient is first divided by the scale (`grad_scaler.unscale_(optimizer)`
for the primary model, the manual loop for `models[1:]`);
`torch.cuda.synchronize(device)` for every device (lines 198-199) does not
change the value state; then the gradients are averaged into the primary
model; and only afterwards is the primary model clipped
(`torch.nn.utils.clip_grad_norm_`, line 216) and stepped (`optimizer.step`
or `grad_scaler.step`, lines 218-222), in that order.  The clipping and the
optimizer step are library calls on the primary model's state, abstracted
as `clip_fn` and `step_fn`. -/
def backward_and_step_multi_gpu (use_amp : Bool) (scale : ℚ)
    (clip_fn step_fn : Model → Model) (ms : List Model) : List Model :=
  let ms1 := if use_amp then ms.map (unscale_grads scale) else ms
  match average_grads ms1 with
  | [] => []
  | primary :: rest => step_fn (clip_fn primary) :: rest

/-- One secondary replica after `_sync_models`: every parameter in the
zipped prefix (line 232) gets the primary's value copied onto its device
(line 233, a value-level identity), and every present gradient is zeroed in
place (lines 235-238); absent gradients stay absent. -/
def sync_params (primary : Model) (m : Model) : Model :=
  m.mapIdx fun j p =>
    { data := if j < primary.length then (primary.getD j noParam).data else p.data,
      grad := p.grad.map fun g => g.map fun _ => (0 : ℚ) }

/-- Shallow embedding of `_sync_models` (lines 226-238): the primary model
`models[0]` is only read, every other model is resynchronized to it. -/
def sync_models (ms : List Model) : List Model :=
  match ms with
  | [] => []
  | primary :: rest => primary :: rest.map (sync_params primary)

/-- Convenience accessor: the gradient of parameter `j` of model `m`, as a
list (empty when out of range or absent). -/
def grad_at (m : Model) (j : ℕ) : List ℚ := (m.getD j noParam).grad.getD []

/-! ### Helper lemmas for the training embedding -/

/-- Positional lookup through `List.map`, when the function fixes the
defaults. -/
theorem getD_map_of_default {α β : Type} (f : α → β) (dα : α) (dβ : β)
    (hf : f dα = dβ) (l : List α) (j : ℕ) :
    (l.map f).getD j dβ = f (l.getD j dα) := by
  by_cases hj : j < l.length
  · rw [List.getD_eq_getElem _ _ (by simpa using hj), List.getD_eq_getElem _ _ hj,
      List.getElem_map]
  · rw [List.getD_eq_default _ _ (by simpa using Nat.le_of_not_lt hj),
      List.getD_eq_default _ _ (Nat.le_of_not_lt hj), hf]

/-- Positional lookup through `List.mapIdx`, within range. -/
theorem getD_mapIdx {α β : Type} (l : List α) (f : ℕ → α → β) (j : ℕ)
    (hj : j < l.length) (dα : α) (dβ : β) :
    (l.mapIdx f).getD j dβ = f j (l.getD j dα) := by
  rw [List.getD_eq_getElem _ _ (by simpa using hj), List.getD_eq_getElem _ _ hj,
    List.getElem_mapIdx]

/-- Unscaling commutes with reading a gradient: the gradient of the unscaled
model is the original gradient with every entry divided by the scale. -/
theorem grad_at_unscale (scale : ℚ) (m : Model) (j : ℕ) :
    grad_at (unscale_grads scale m) j = (grad_at m j).map fun x => x / scale := by
  unfold grad_at unscale_grads
  rw [getD_map_of_default _ noParam noParam rfl]
  cases (m.getD j noParam).grad <;> rfl

/-- Unscaling does not change which parameters exist or have gradients. -/
theorem all_have_grad_unscale (scale : ℚ) (ms : List Model) (j : ℕ) :
    all_have_grad (ms.map (unscale_grads scale)) j = all_have_grad ms j := by
  unfold all_have_grad unscale_grads
  rw [List.all_map]
  congr 1
  funext m
  simp only [Function.comp_apply, List.length_map]
  rw [getD_map_of_default _ noParam noParam rfl]
  cases (m.getD j noParam).grad <;> rfl

/-- Entry `k` of `stack_mean`, within range. -/
theorem stack_mean_getD (gs : List (List ℚ)) (L k : ℕ)
    (hL : (gs.headD []).length = L) (hk : k < L) :
    (stack_mean gs).getD k 0
      = (gs.map fun g => g.getD k 0).sum / (gs.length : ℚ) := by
  unfold stack_mean
  rw [hL, List.getD_eq_getElem _ _ (by simpa using hk), List.getElem_map,
    List.getElem_range]

/-- Length of `stack_mean`. -/
theorem stack_mean_length (gs : List (List ℚ)) :
    (stack_mean gs).length = (gs.headD []).length := by
  simp [stack_mean]

/-- Entrywise division through `List.getD` (with default `0`). -/
theorem getD_map_div (s : ℚ) (g : List ℚ) (k : ℕ) :
    (g.map fun x => x / s).getD k 0 = g.getD k 0 / s := by
  by_cases hk : k < g.length
  · rw [List.getD_eq_getElem _ _ (by simpa using hk), List.getD_eq_getElem _ _ hk,
      List.getElem_map]
  · rw [List.getD_eq_default _ _ (by simpa using Nat.le_of_not_lt hk),
      List.getD_eq_default _ _ (Nat.le_of_not_lt hk), zero_div]

/-- Characterization of `average_grads` at a parameter index where every
replica has a gradient: the secondaries are untouched, the primary keeps its
data and its gradient becomes the stacked mean. -/
theorem average_grads_spec (primary : Model) (rest : List Model) (j : ℕ)
    (hall : all_have_grad (primary :: rest) j = true) :
    ∃ P : Model, average_grads (primary :: rest) = P :: rest ∧
      P.length = primary.length ∧
      (P.getD j noParam).data = (primary.getD j noParam).data ∧
      (P.getD j noParam).grad
        = some (stack_mean ((primary :: rest).map fun m => grad_at m j)) := by
  have hj : j < primary.length := by
    have h1 := List.all_eq_true.mp hall primary (List.mem_cons_self _ _)
    exact of_decide_eq_true (Bool.and_elim_left h1)
  refine ⟨_, rfl, by simp, ?_, ?_⟩
  · rw [getD_mapIdx _ _ j hj noParam noParam, if_pos hall]
  · rw [getD_mapIdx _ _ j hj noParam noParam, if_pos hall]
    rfl

/-! ### Claim theorems for the multi-GPU step and model synchronization -/

/-- C1: in `_backward_and_step_multi_gpu`, for every list of `n` replica
models holding the gradients the backward passes produced: when AMP is
enabled each replica's present gradients are divided by the scaler's scale
factor (the secondaries by the manual loop of lines 188-192, the primary via
`grad_scaler.unscale_(optimizer)`); the blocking per-device synchronization
leaves the value state unchanged; then, at each tuple of corresponding
parameters in which all `n` replicas have a gradient, the primary model's
gradient is overwritten with the elementwise mean of the `n` replicas'
gradients (each moved to the primary device); and only afterwards are the
primary model's gradients clipped and a single optimizer step taken, in that
order — the result is `step_fn (clip_fn P) :: secondaries` where `P` is the
averaged primary, for arbitrary library behaviours `clip_fn` and `step_fn`. -/
theorem backward_step_multi_gpu_averages (use_amp : Bool) (scale : ℚ)
    (clip_fn step_fn : Model → Model) (primary : Model) (rest : List Model)
    (j L : ℕ)
    (hall : all_have_grad (primary :: rest) j = true)
    (hL : ∀ m ∈ primary :: rest, (grad_at m j).length = L) :
    ∃ P : Model,
      backward_and_step_multi_gpu use_amp scale clip_fn step_fn (primary :: rest)
        = step_fn (clip_fn P)
            :: (if use_amp then rest.map (unscale_grads scale) else rest) ∧
      (P.getD j noParam).grad.isSome = true ∧
      (grad_at P j).length = L ∧
      ∀ k, k < L →
        (grad_at P j).getD k 0
          = (((primary :: rest).map fun m => (grad_at m j).getD k 0).sum
              / (if use_amp then scale else 1)) / ((rest.length : ℚ) + 1) := by
  cases use_amp with
  | false =>
      obtain ⟨P, hEq, hlen, hdata, hgrad⟩ := average_grads_spec primary rest j hall
      have hPg : grad_at P j
          = stack_mean ((primary :: rest).map fun m => grad_at m j) := by
        unfold grad_at
        rw [hgrad]
        rfl
      have hhead : ((((primary :: rest).map fun m => grad_at m j).headD []).length) = L :=
        hL primary (List.mem_cons_self _ _)
      refine ⟨P, ?_, ?_, ?_, ?_⟩
      · simp only [backward_and_step_multi_gpu, Bool.false_eq_true, if_false]
        rw [hEq]
      · rw [hgrad]
        rfl
      · rw [hPg, stack_mean_length]
        exact hhead
      · intro k hk
        rw [hPg, stack_mean_getD _ L k hhead hk, List.map_map]
        have hfn : ((fun g => List.getD g k 0) ∘ fun m => grad_at m j)
            = fun m => (grad_at m j).getD k 0 := rfl
        rw [hfn]
        simp only [Bool.false_eq_true, if_false, div_one, List.length_map, List.length_cons]
        push_cast
        rfl
  | true =>
      have hall2 : all_have_grad
          (unscale_grads scale primary :: rest.map (unscale_grads scale)) j = true := by
        have h := all_have_grad_unscale scale (primary :: rest) j
        rw [show (primary :: rest).map (unscale_grads scale)
              = unscale_grads scale primary :: rest.map (unscale_grads scale) from rfl] at h
        rw [h]
        exact hall
      obtain ⟨P, hEq, hlen, hdata, hgrad⟩ :=
        average_grads_spec (unscale_grads scale primary)
          (rest.map (unscale_grads scale)) j hall2
      have hgs : ((unscale_grads scale primary :: rest.map (unscale_grads scale)).map
            fun m => grad_at m j)
          = (primary :: rest).map fun m => (grad_at m j).map fun x => x / scale := by
        show (((primary :: rest).map (unscale_grads scale)).map fun m => grad_at m j) = _
        rw [List.map_map]
        congr 1
        funext m
        exact grad_at_unscale scale m j
      have hPg : grad_at P j
          = stack_mean ((unscale_grads scale primary :: rest.map (unscale_grads scale)).map
              fun m => grad_at m j) := by
        unfold grad_at
        rw [hgrad]
        rfl
      have hhead : ((((unscale_grads scale primary :: rest.map (unscale_grads scale)).map
            fun m => grad_at m j).headD []).length) = L := by
        show (grad_at (unscale_grads scale primary) j).length = L
        rw [grad_at_unscale, List.length_map]
        exact hL primary (List.mem_cons_self _ _)
      refine ⟨P, ?_, ?_, ?_, ?_⟩
      · simp only [backward_and_step_multi_gpu, if_true]
        rw [show (primary :: rest).map (unscale_grads scale)
              = unscale_grads scale primary :: rest.map (unscale_grads scale) from rfl,
          hEq]
      · rw [hgrad]
        rfl
      · rw [hPg, stack_mean_length]
        exact hhead
      · intro k hk
        rw [hPg, stack_mean_getD _ L k hhead hk, hgs, List.map_map]
        have hfn : ((fun g => List.getD g k 0) ∘ fun m => (grad_at m j).map fun x => x / scale)
            = fun m => ((grad_at m j).getD k 0) * scale⁻¹ := by
          funext m
          rw [Function.comp_apply, getD_map_div, div_eq_mul_inv]
        rw [hfn, List.sum_map_mul_right]
        simp only [if_true, List.length_map, List.length_cons]
        push_cast
        rw [div_eq_mul_inv _ scale]

/-- Concrete two-replica state used by the C1 witness: one parameter per
replica, both with gradients present. -/
def wPrimary : Model := [{ data := [1], grad := some [2] }]

/-- Concrete secondary replica for the C1 witness. -/
def wSecondary : Model := [{ data := [1], grad := some [4] }]

/-- C1 witness: the averaging statement applied to a concrete pair of
replicas without AMP, with the clipping and stepping library calls taken to
be the identity. -/
theorem backward_step_multi_gpu_averages_witness :
    all_have_grad (wPrimary :: [wSecondary]) 0 = true ∧
    (∀ m ∈ wPrimary :: [wSecondary], (grad_at m 0).length = 1) ∧
    ∃ P : Model,
      backward_and_step_multi_gpu false 1 id id (wPrimary :: [wSecondary])
        = id (id P)
            :: (if false then [wSecondary].map (unscale_grads 1) else [wSecondary]) ∧
      (P.getD 0 noParam).grad.isSome = true ∧
      (grad_at P 0).length = 1 ∧
      ∀ k, k < 1 →
        (grad_at P 0).getD k 0
          = (((wPrimary :: [wSecondary]).map fun m => (grad_at m 0).getD k 0).sum
              / (if false then (1 : ℚ) else 1)) / (([wSecondary].length : ℚ) + 1) :=
  ⟨by decide, by decide,
    backward_step_multi_gpu_averages false 1 id id wPrimary [wSecondary] 0 1
      (by decide) (by decide)⟩

/-- Positional lookup into a synchronized secondary model, within range. -/
theorem sync_params_getD (primary m : Model) (j : ℕ) (hj : j < m.length) :
    (sync_params primary m).getD j noParam
      = { data := if j < primary.length then (primary.getD j noParam).data
            else (m.getD j noParam).data,
          grad := (m.getD j noParam).grad.map fun g => g.map fun _ => (0 : ℚ) } := by
  unfold sync_params
  rw [getD_mapIdx _ _ j hj noParam noParam]

/-- C8: after `_sync_models` on a nonempty list of models, the primary model
`models[0]` is returned unchanged — its parameters, gradients and (untouched)
optimizer state are exactly as before — and every secondary model keeps its
parameter count while, at each parameter index in the zipped prefix, its
data equals the primary's corresponding data (copied to its device) and each
of its existing gradients is zeroed in place (same shape, every entry 0);
absent gradients stay absent. -/
theorem sync_models_resync (primary : Model) (rest : List Model) :
    ∃ rest' : List Model,
      sync_models (primary :: rest) = primary :: rest' ∧
      rest'.length = rest.length ∧
      ∀ i, i < rest.length →
        (rest'.getD i []).length = (rest.getD i []).length ∧
        ∀ j, j < (rest.getD i []).length →
          (j < primary.length →
            ((rest'.getD i []).getD j noParam).data
              = (primary.getD j noParam).data) ∧
          (((rest'.getD i []).getD j noParam).grad.isSome
              = ((rest.getD i []).getD j noParam).grad.isSome) ∧
          ∀ g, ((rest'.getD i []).getD j noParam).grad = some g →
            g.length = (grad_at (rest.getD i []) j).length ∧ ∀ x ∈ g, x = 0 := by
  refine ⟨rest.map (sync_params primary), rfl, List.length_map _ _, ?_⟩
  intro i hi
  rw [getD_map_of_default (sync_params primary) [] [] rfl]
  constructor
  · show (sync_params primary (rest.getD i [])).length = _
    simp [sync_params]
  · intro j hj
    rw [sync_params_getD primary (rest.getD i []) j hj]
    refine ⟨fun hjp => by rw [if_pos hjp], ?_, ?_⟩
    · cases ((rest.getD i []).getD j noParam).grad <;> rfl
    · intro g hg
      cases hgr : ((rest.getD i []).getD j noParam).grad with
      | none =>
          rw [hgr] at hg
          exact Option.noConfusion hg
      | some g0 =>
          rw [hgr] at hg
          have hg2 : g0.map (fun _ => (0 : ℚ)) = g := Option.some.inj hg
          rw [← hg2]
          refine ⟨?_, ?_⟩
          · rw [List.length_map]
            unfold grad_at
            rw [hgr]
            rfl
          · intro x hx
            obtain ⟨y, hy, hxy⟩ := List.mem_map.mp hx
            exact hxy.symm

/-- Concrete primary model used by the C8 witness. -/
def wSyncPrimary : Model := [{ data := [5, 6], grad := some [7, 8] }]

/-- Concrete secondary models used by the C8 witness. -/
def wSyncRest : List Model :=
  [[{ data := [1, 2], grad := some [3, 4] }], [{ data := [9], grad := none }]]

/-- C8 witness: the synchronization statement applied to a concrete primary
model and two secondaries. -/
theorem sync_models_resync_witness :
    ∃ rest' : List Model,
      sync_models (wSyncPrimary :: wSyncRest) = wSyncPrimary :: rest' ∧
      rest'.length = wSyncRest.length ∧
      ∀ i, i < wSyncRest.length →
        (rest'.getD i []).length = (wSyncRest.getD i []).length ∧
        ∀ j, j < (wSyncRest.getD i []).length →
          (j < wSyncPrimary.length →
            ((rest'.getD i []).getD j noParam).data
              = (wSyncPrimary.getD j noParam).data) ∧
          (((rest'.getD i []).getD j noParam).grad.isSome
              = ((wSyncRest.getD i []).getD j noParam).grad.isSome) ∧
          ∀ g, ((rest'.getD i []).getD j noParam).grad = some g →
            g.length = (grad_at (wSyncRest.getD i []) j).length ∧ ∀ x ∈ g, x = 0 :=
  sync_models_resync wSyncPrimary wSyncRest

/-! ## Checkpoint resume and weight initialization
(`load_or_initialize_models` and `init_weights`, lines 40-85) -/

/-- Kind of a torch submodule, as far as `init_weights` distinguishes them:
`nn.Linear`, `nn.Conv1d`, or anything else. -/
inductive LayerKind where
  | linear
  | conv1d
  | other
  deriving DecidableEq, Repr

/-- A submodule as `init_weights` sees it: its kind, its weight tensor and
its optional bias tensor (`m.bias` may be `None`). -/
structure Layer where
  kind : LayerKind
  weight : List ℚ
  bias : Option (List ℚ)
  deriving DecidableEq, Repr

/-- A network: the sequence of submodules that `model.apply` visits, which
is also the state that `state_dict`/`load_state_dict` copy. -/
abbrev Net := List Layer

/-- Placeholder layer, the default of out-of-range positional lookups. -/
def defLayer : Layer := { kind := .other, weight := [], bias := none }

/-- `init_weights` (lines 80-85) applied to every submodule via
`model.apply` (line 68): `nn.Linear` and `nn.Conv1d` modules have their
weight refilled with fresh normal samples (`nn.init.normal_`, whose RNG is
abstracted by the oracle `fresh`, `fresh i k` being the sample drawn for
entry `k` of submodule `i`) and their bias, when present, set to the
constant 0 (`nn.init.constant_`); every other module is untouched. -/
def init_weights (fresh : ℕ → ℕ → ℚ) (net : Net) : Net :=
  net.mapIdx fun i l =>
    match l.kind with
    | .linear | .conv1d =>
        { l with weight := l.weight.mapIdx fun k _ => fresh i k,
                 bias := l.bias.map fun b => b.map fun _ => (0 : ℚ) }
    | .other => l

/-- Modelled from the spec: `load_checkpoint` lives in
`utils/checkpoint_utils.py`, which is not among the sources here; the spec
calls it "a library-provided checkpoint loader" to which resumption is
"delegated entirely".  Per its call site (lines 57-60) it returns the saved
epoch, the saved batch step, and the restored model, optimizer and scheduler
states; this record abstracts the checkpoint's contents, and the loader is
the function reading its fields. -/
structure Checkpoint (O S : Type) where
  epoch : ℕ
  batch_step : ℕ
  model : Net
  optimizer : O
  scheduler : S

/-- The tuple `load_or_initialize_models` returns (line 73): the four
(possibly absent) models, the optimizer, the scheduler, `start_epoch` and
`batch_step`. -/
structure TrainState (O S : Type) where
  model_0 : Net
  model_1 : Option Net
  model_2 : Option Net
  model_3 : Option Net
  optimizer : O
  scheduler : S
  start_epoch : ℕ
  batch_step : ℕ

/-- Shallow embedding of `load_or_initialize_models` (lines 40-73).
`checkpoint_exists` stands for `os.path.exists(checkpoint_path)`; `ckpt`
holds whatever the library loader would return (consulted only on the
resume path); `fresh` is the RNG oracle behind `nn.init.normal_`.  On the
resume path the loader's results replace model, optimizer and scheduler and
`start_epoch` is the saved epoch plus one (line 61); otherwise `model_0` is
reinitialized via `model_0.apply(init_weights)` and the returned epoch and
batch step are 0.  In both branches every present secondary model is set to
`model_0`'s state via `load_state_dict(model_0.state_dict())`. -/
def load_or_initialize_models {O S : Type} (mode : String) (checkpoint_exists : Bool)
    (ckpt : Checkpoint O S) (fresh : ℕ → ℕ → ℚ)
    (model_0 : Net) (model_1 model_2 model_3 : Option Net)
    (optimizer : O) (scheduler : S) : TrainState O S :=
  if mode = "resume" ∧ checkpoint_exists = true then
    { model_0 := ckpt.model,
      model_1 := model_1.map fun _ => ckpt.model,
      model_2 := model_2.map fun _ => ckpt.model,
      model_3 := model_3.map fun _ => ckpt.model,
      optimizer := ckpt.optimizer,
      scheduler := ckpt.scheduler,
      start_epoch := ckpt.epoch + 1,
      batch_step := ckpt.batch_step }
  else
    { model_0 := init_weights fresh model_0,
      model_1 := model_1.map fun _ => init_weights fresh model_0,
      model_2 := model_2.map fun _ => init_weights fresh model_0,
      model_3 := model_3.map fun _ => init_weights fresh model_0,
      optimizer := optimizer,
      scheduler := scheduler,
      start_epoch := 0,
      batch_step := 0 }

/-- Per-layer characterization of `init_weights`: `nn.Linear`/`nn.Conv1d`
layers keep their kind but get oracle samples as weight entries and a zeroed
bias (when present); other layers are untouched. -/
theorem init_weights_getD (fresh : ℕ → ℕ → ℚ) (net : Net) (i : ℕ)
    (hi : i < net.length) :
    ((net.getD i defLayer).kind = .other →
      (init_weights fresh net).getD i defLayer = net.getD i defLayer) ∧
    ((net.getD i defLayer).kind ≠ .other →
      (init_weights fresh net).getD i defLayer
        = { kind := (net.getD i defLayer).kind,
            weight := (net.getD i defLayer).weight.mapIdx fun k _ => fresh i k,
            bias := (net.getD i defLayer).bias.map fun b =>
              b.map fun _ => (0 : ℚ) }) := by
  unfold init_weights
  rw [getD_mapIdx _ _ i hi defLayer defLayer]
  cases hk : (net.getD i defLayer).kind with
  | linear => exact ⟨fun h => absurd h (by decide), fun _ => rfl⟩
  | conv1d => exact ⟨fun h => absurd h (by decide), fun _ => rfl⟩
  | other => exact ⟨fun _ => rfl, fun h => absurd rfl h⟩

/-- C9: `load_or_initialize_models` loads the checkpoint and resumes —
returning `start_epoch` equal to the saved epoch plus one and the saved
batch step — exactly when the mode is `"resume"` and the checkpoint file
exists; in every other case (including mode `"resume"` with a missing
checkpoint file) it freshly initializes `model_0`'s Linear and Conv1d
weights through `init_weights` (other layers untouched, reinitialized
weights drawn from the RNG oracle, biases zeroed) and returns
`start_epoch = 0` and `batch_step = 0`; in both cases every present
secondary model's state is set equal to the returned `model_0`'s state. -/
theorem load_or_initialize_models_spec {O S : Type} (mode : String)
    (checkpoint_exists : Bool) (ckpt : Checkpoint O S) (fresh : ℕ → ℕ → ℚ)
    (model_0 : Net) (model_1 model_2 model_3 : Option Net)
    (optimizer : O) (scheduler : S) (st : TrainState O S)
    (hst : load_or_initialize_models mode checkpoint_exists ckpt fresh model_0
        model_1 model_2 model_3 optimizer scheduler = st) :
    ((mode = "resume" ∧ checkpoint_exists = true) →
        st.model_0 = ckpt.model ∧ st.start_epoch = ckpt.epoch + 1 ∧
        st.batch_step = ckpt.batch_step) ∧
    (¬ (mode = "resume" ∧ checkpoint_exists = true) →
        st.start_epoch = 0 ∧ st.batch_step = 0 ∧
        st.model_0 = init_weights fresh model_0 ∧
        st.model_0.length = model_0.length ∧
        ∀ i, i < model_0.length →
          ((model_0.getD i defLayer).kind = .other →
            st.model_0.getD i defLayer = model_0.getD i defLayer) ∧
          ((model_0.getD i defLayer).kind ≠ .other →
            (st.model_0.getD i defLayer).kind = (model_0.getD i defLayer).kind ∧
            (st.model_0.getD i defLayer).weight.length
              = (model_0.getD i defLayer).weight.length ∧
            (∀ k, k < (model_0.getD i defLayer).weight.length →
              (st.model_0.getD i defLayer).weight.getD k 0 = fresh i k) ∧
            ∀ b, (model_0.getD i defLayer).bias = some b →
              (st.model_0.getD i defLayer).bias
                = some (b.map fun _ => (0 : ℚ)))) ∧
    (st.model_1 = model_1.map fun _ => st.model_0) ∧
    (st.model_2 = model_2.map fun _ => st.model_0) ∧
    (st.model_3 = model_3.map fun _ => st.model_0) := by
  subst hst
  by_cases h : mode = "resume" ∧ checkpoint_exists = true
  · have hred : load_or_initialize_models mode checkpoint_exists ckpt fresh model_0
        model_1 model_2 model_3 optimizer scheduler
        = { model_0 := ckpt.model,
            model_1 := model_1.map fun _ => ckpt.model,
            model_2 := model_2.map fun _ => ckpt.model,
            model_3 := model_3.map fun _ => ckpt.model,
            optimizer := ckpt.optimizer, scheduler := ckpt.scheduler,
            start_epoch := ckpt.epoch + 1, batch_step := ckpt.batch_step } := by
      unfold load_or_initialize_models
      rw [if_pos h]
    rw [hred]
    exact ⟨fun _ => ⟨rfl, rfl, rfl⟩, fun hc => absurd h hc, rfl, rfl, rfl⟩
  · have hred : load_or_initialize_models mode checkpoint_exists ckpt fresh model_0
        model_1 model_2 model_3 optimizer scheduler
        = { model_0 := init_weights fresh model_0,
            model_1 := model_1.map fun _ => init_weights fresh model_0,
            model_2 := model_2.map fun _ => init_weights fresh model_0,
            model_3 := model_3.map fun _ => init_weights fresh model_0,
            optimizer := optimizer, scheduler := scheduler,
            start_epoch := 0, batch_step := 0 } := by
      unfold load_or_initialize_models
      rw [if_neg h]
    rw [hred]
    refine ⟨fun hc => absurd hc h,
      fun _ => ⟨rfl, rfl, rfl, by simp [init_weights], ?_⟩, rfl, rfl, rfl⟩
    intro i hi
    obtain ⟨hother, hinit⟩ := init_weights_getD fresh model_0 i hi
    refine ⟨hother, fun hne => ?_⟩
    rw [hinit hne]
    refine ⟨rfl, by simp, fun k hk => ?_, fun b hb => ?_⟩
    · show ((model_0.getD i defLayer).weight.mapIdx fun k2 _ => fresh i k2).getD k 0
        = fresh i k
      rw [getD_mapIdx _ _ k hk 0 0]
    · rw [hb]
      rfl

/-- Concrete network used by the C9 witness: one Linear layer (with bias)
and one non-initializable layer. -/
def wNet : Net :=
  [{ kind := .linear, weight := [5, 6], bias := some [7] },
   { kind := .other, weight := [8], bias := none }]

/-- Concrete checkpoint contents used by the C9 witness. -/
def wCkpt : Checkpoint ℕ ℕ :=
  { epoch := 4, batch_step := 9, model := [], optimizer := 3, scheduler := 2 }

/-- C9 witness: the statement applied, with mode `"train"` (the
initialization branch), to a concrete network, checkpoint, optimizer and
scheduler, with the RNG oracle returning 1 everywhere. -/
theorem load_or_initialize_models_spec_witness :
    (("train" = "resume" ∧ true = true) →
        (load_or_initialize_models "train" true wCkpt (fun _ _ => 1) wNet
            (some []) none none 3 2).model_0 = wCkpt.model ∧
        (load_or_initialize_models "train" true wCkpt (fun _ _ => 1) wNet
            (some []) none none 3 2).start_epoch = wCkpt.epoch + 1 ∧
        (load_or_initialize_models "train" true wCkpt (fun _ _ => 1) wNet
            (some []) none none 3 2).batch_step = wCkpt.batch_step) ∧
    (¬ ("train" = "resume" ∧ true = true) →
        (load_or_initialize_models "train" true wCkpt (fun _ _ => 1) wNet
            (some []) none none 3 2).start_epoch = 0 ∧
        (load_or_initialize_models "train" true wCkpt (fun _ _ => 1) wNet
            (some []) none none 3 2).batch_step = 0 ∧
        (load_or_initialize_models "train" true wCkpt (fun _ _ => 1) wNet
            (some []) none none 3 2).model_0 = init_weights (fun _ _ => 1) wNet ∧
        (load_or_initialize_models "train" true wCkpt (fun _ _ => 1) wNet
            (some []) none none 3 2).model_0.length = wNet.length ∧
        ∀ i, i < wNet.length →
          ((wNet.getD i defLayer).kind = .other →
            (load_or_initialize_models "train" true wCkpt (fun _ _ => 1) wNet
                (some []) none none 3 2).model_0.getD i defLayer
              = wNet.getD i defLayer) ∧
          ((wNet.getD i defLayer).kind ≠ .other →
            ((load_or_initialize_models "train" true wCkpt (fun _ _ => 1) wNet
                (some []) none none 3 2).model_0.getD i defLayer).kind
              = (wNet.getD i defLayer).kind ∧
            ((load_or_initialize_models "train" true wCkpt (fun _ _ => 1) wNet
                (some []) none none 3 2).model_0.getD i defLayer).weight.length
              = (wNet.getD i defLayer).weight.length ∧
            (∀ k, k < (wNet.getD i defLayer).weight.length →
              ((load_or_initialize_models "train" true wCkpt (fun _ _ => 1) wNet
                  (some []) none none 3 2).model_0.getD i defLayer).weight.getD k 0
                = 1) ∧
            ∀ b, (wNet.getD i defLayer).bias = some b →
              ((load_or_initialize_models "train" true wCkpt (fun _ _ => 1) wNet
                  (some []) none none 3 2).model_0.getD i defLayer).bias
                = some (b.map fun _ => (0 : ℚ)))) ∧
    ((load_or_initialize_models "train" true wCkpt (fun _ _ => 1) wNet
        (some []) none none 3 2).model_1
      = (some ([] : Net)).map fun _ =>
          (load_or_initialize_models "train" true wCkpt (fun _ _ => 1) wNet
            (some []) none none 3 2).model_0) ∧
    ((load_or_initialize_models "train" true wCkpt (fun _ _ => 1) wNet
        (some []) none none 3 2).model_2
      = (none : Option Net).map fun _ =>
          (load_or_initialize_models "train" true wCkpt (fun _ _ => 1) wNet
            (some []) none none 3 2).model_0) ∧
    ((load_or_initialize_models "train" true wCkpt (fun _ _ => 1) wNet
        (some []) none none 3 2).model_3
      = (none : Option Net).map fun _ =>
          (load_or_initialize_models "train" true wCkpt (fun _ _ => 1) wNet
            (some []) none none 3 2).model_0) :=
  load_or_initialize_models_spec "train" true wCkpt (fun _ _ => 1) wNet
    (some []) none none 3 2 _ rfl

end NeuroSync
